import Mathlib

/-!
Verification development for the per-session dispatch engine of the
repository (server/sender module: `getSession`, `sendOneMessage`,
`channelLoop`, `senderLoop`, `startSender`, `stopSender`, and the
storage collaborator's `incrementSent`).

The TypeScript source is shallowly embedded: each synchronous block of
mutations is one Lean function or one constructor of a step relation;
the `await` suspension points of the event loop are the only places
where concurrent interleaving can occur, and they are modelled
explicitly where a claim depends on them (the two-phase read/write of
`incrementSent`).  HTTP responses and scheduler choices enter as
explicit parameters.
-/

/-- The in-memory per-session record created by `getSession`
(sender module): `isActive`, `totalSent`, `activeThreads`,
`startTime` (null when idle), `shouldStop`, `sessionId`. -/
structure SessionSender where
  isActive : Bool
  totalSent : Nat
  activeThreads : Nat
  startTime : Option Nat
  shouldStop : Bool
  sessionId : String
deriving DecidableEq, Repr

/-- `getSession` on a fresh id inserts this record:
`isActive:false, totalSent:0, activeThreads:0, startTime:null,
shouldStop:false`. -/
def initSession (sessionId : String) : SessionSender :=
  { isActive := false
    totalSent := 0
    activeThreads := 0
    startTime := none
    shouldStop := false
    sessionId := sessionId }

/-- The aggregate view returned by `getStatus` (and per entry by
`getAllStatuses`). -/
structure SessionStatus where
  isActive : Bool
  totalSent : Nat
  activeThreads : Nat
  startTime : Option Nat
deriving DecidableEq, Repr

/-- `getStatus`: projects the four status fields of the session record. -/
def getStatus (s : SessionSender) : SessionStatus :=
  { isActive := s.isActive
    totalSent := s.totalSent
    activeThreads := s.activeThreads
    startTime := s.startTime }

/-- The spec's session invariant, stated on the observable status:
`isActive == false` implies `activeThreads == 0` and `startTime` absent. -/
def statusInvariant (st : SessionStatus) : Prop :=
  st.isActive = false → st.activeThreads = 0 ∧ st.startTime = none

/-- The invariant read through `getStatus`. -/
def sessionInvariant (s : SessionSender) : Prop :=
  statusInvariant (getStatus s)

/--
Every synchronous block of the sender module that mutates a session
record, as one atomic step each (the JavaScript event loop runs each
block without preemption; observers run between blocks):

* `startRun`: `startSender` lines `s.isActive = true; s.shouldStop =
  false; s.startTime = Date.now()`, guarded by the preceding
  `if (s.isActive) return …` check (no suspension in between);
* `setThreads`: `senderLoop`'s `s.activeThreads = channelIds.length`,
  which only executes while the run that set `isActive` is still
  active (the run's finalizer runs strictly after `senderLoop`
  returns);
* `sent`: `channelLoop`'s `s.totalSent++` on a successful send;
* `requestStop`: `stopSender`'s / `stopAllSenders`' `s.shouldStop =
  true`, guarded by their `isActive` check, and `senderLoop`'s
  `s.shouldStop = true` on a `token_invalid` aggregate (which also
  runs only while the run is active);
* `finalize`: the run's `finally` block `s.isActive = false;
  s.activeThreads = 0; s.startTime = null; s.shouldStop = false`;
* `seedTotal`: `restoreAllSessions`' `s.totalSent = config.totalSent`.
-/
inductive SessionStep : SessionSender → SessionSender → Prop
  | startRun (s : SessionSender) (t : Nat) (h : s.isActive = false) :
      SessionStep s { s with isActive := true, shouldStop := false, startTime := some t }
  | setThreads (s : SessionSender) (n : Nat) (h : s.isActive = true) :
      SessionStep s { s with activeThreads := n }
  | sent (s : SessionSender) (h : s.isActive = true) :
      SessionStep s { s with totalSent := s.totalSent + 1 }
  | requestStop (s : SessionSender) (h : s.isActive = true) :
      SessionStep s { s with shouldStop := true }
  | finalize (s : SessionSender) :
      SessionStep s { s with isActive := false, activeThreads := 0,
                             startTime := none, shouldStop := false }
  | seedTotal (s : SessionSender) (n : Nat) :
      SessionStep s { s with totalSent := n }

/-- States reachable from the freshly created record by the sender
module's mutation blocks. -/
def SessionReachable (sessionId : String) (s : SessionSender) : Prop :=
  Relation.ReflTransGen SessionStep (initSession sessionId) s

/-- JavaScript `String.prototype.split` on a single-character
separator class, over the character list: splits at every separator,
keeping empty pieces (so `"a,,b"` gives three pieces). -/
def splitChars (p : Char → Bool) : List Char → List (List Char)
  | [] => [[]]
  | c :: cs =>
      let r := splitChars p cs
      if p c then [] :: r
      else
        match r with
        | [] => [[c]]
        | h :: t => (c :: h) :: t

/-- JavaScript `String.prototype.trim`, over the character list: drop
leading and trailing whitespace. -/
def trimChars (cs : List Char) : List Char :=
  ((cs.dropWhile Char.isWhitespace).reverse.dropWhile Char.isWhitespace).reverse

/-- `startSender`'s channel-id parsing: split on comma or newline,
trim each token, keep the tokens matching `/^\d+$/` (non-empty, all
digits). -/
def parseChannelIds (input : String) : List String :=
  ((((splitChars (fun c => c == ',' || c == '\n') input.toList).map trimChars).filter
    (fun id => !id.isEmpty && id.all Char.isDigit)).map (fun cs => String.mk cs))

/-- Outcome of one upstream HTTP call made by `sendOneMessage`:
either a response with a status code (and, for 429 bodies, the parsed
`retry_after` in whole seconds), or a thrown network error. -/
inductive HttpOutcome
  | response (status : Nat) (retryAfterSec : Nat)
  | networkError
deriving DecidableEq, Repr

/-- The `{sent, cooldownMs}` record returned by `sendOneMessage`.
`cooldownMs` reuses the source's sentinel encoding: `-401` for a 401
response, `-1` for a 403 response. -/
structure AttemptResult where
  sent : Bool
  cooldownMs : Int
deriving DecidableEq, Repr

/-- `sendOneMessage`: returns `{sent:false, cooldownMs:0}` when the
session's `shouldStop` flag is already set at entry; otherwise
classifies the HTTP outcome: ok (2xx) → `{sent:true, 0}`, 429 →
`{sent:false, ceil(retry_after·1000)+1000}`, 401 → `{sent:false,
-401}`, 403 → `{sent:false, -1}`, any other status or a thrown
network error → `{sent:false, 5000}`. -/
def sendOneMessage (shouldStop : Bool) (o : HttpOutcome) : AttemptResult :=
  if shouldStop then { sent := false, cooldownMs := 0 }
  else
    match o with
    | .response status retryAfterSec =>
        if 200 ≤ status ∧ status < 300 then { sent := true, cooldownMs := 0 }
        else if status = 429 then
          { sent := false, cooldownMs := (retryAfterSec * 1000 : Nat) + 1000 }
        else if status = 401 then { sent := false, cooldownMs := -401 }
        else if status = 403 then { sent := false, cooldownMs := -1 }
        else { sent := false, cooldownMs := 5000 }
    | .networkError => { sent := false, cooldownMs := 5000 }

/-- The terminal result type of `channelLoop`
(`"stopped" | "token_invalid" | "done"`). -/
inductive ChannelOutcome
  | stopped
  | token_invalid
  | done
deriving DecidableEq, Repr

/-- What one `channelLoop` iteration does after its `sendOneMessage`
returns: exit the loop with a terminal outcome, or sleep `waitMs` and
re-enter the loop with an updated consecutive-error count. -/
inductive IterOut
  | exit (o : ChannelOutcome)
  | next (consecutiveErrors : Nat) (waitMs : Nat)
deriving DecidableEq, Repr

/-- The wait computation of `channelLoop`'s failure branch (after
`consecutiveErrors++`): `cooldownMs > 0 ? cooldownMs : cooldownMs ===
-1 ? 60000 : min(10000 * consecutiveErrors, 120000)`. -/
def backoffWaitMs (cooldownMs : Int) (consecutiveErrors : Nat) : Nat :=
  if cooldownMs > 0 then cooldownMs.toNat
  else if cooldownMs = -1 then 60000
  else Nat.min (10000 * consecutiveErrors) 120000

/-- One `channelLoop` iteration body, from the point where the awaited
`sendOneMessage` result is in hand.  `shouldStopAtCheck` is the value
of `s.shouldStop` read at the `if (s.shouldStop) return "stopped"`
line (the flag may have flipped during the awaited send);
`consecutiveErrors` the count carried into the iteration;
`sentWaitSec` the sampled jitter `ceil(uniform(0.9,1.1)·delay)` used
on the success path.  In source order: the `shouldStop` check, then
the `cooldownMs === -401` check, then the `result.sent` branch
(reset count to 0, sleep the jittered wait), else the failure branch
(increment count, sleep `backoffWaitMs`). -/
def channelIter (result : AttemptResult) (shouldStopAtCheck : Bool)
    (consecutiveErrors : Nat) (sentWaitSec : Nat) : IterOut :=
  if shouldStopAtCheck then .exit .stopped
  else if result.cooldownMs = -401 then .exit .token_invalid
  else if result.sent then .next 0 (sentWaitSec * 1000)
  else .next (consecutiveErrors + 1) (backoffWaitMs result.cooldownMs (consecutiveErrors + 1))

/-- Runs `n` consecutive iterations of `channelLoop` in which every
`sendOneMessage` hits a transient failure (a thrown network error),
with the cancellation flag never set, starting from consecutive-error
count `k`; collects the backoff waits (in ms) slept after each
failure. -/
def runTransient (k : Nat) : Nat → List Nat
  | 0 => []
  | n + 1 =>
      match channelIter (sendOneMessage false .networkError) false k 0 with
      | .exit _ => []
      | .next k1 w => w :: runTransient k1 n

/-- The session-level result type of `senderLoop` / a run
(`"stopped" | "token_invalid"`). -/
inductive RunOutcome
  | stopped
  | token_invalid
deriving DecidableEq, Repr

/-- `senderLoop`'s aggregation, reached only once `Promise.all` has
delivered the terminal outcome of every launched channel loop: if any
loop returned `token_invalid`, set `s.shouldStop = true` and return
`token_invalid`; otherwise leave the flag alone and return
`stopped`.  Returns (new `shouldStop` value, run outcome). -/
def senderLoopAggregate (shouldStop0 : Bool) (results : List ChannelOutcome) :
    Bool × RunOutcome :=
  if ChannelOutcome.token_invalid ∈ results then (true, .token_invalid)
  else (shouldStop0, .stopped)

/-- The error log emitted by the run finalizer on a `token_invalid`
outcome. -/
def tokenInvalidLogMsg : String :=
  "TOKEN INVALID - Sender stopped. Your token is invalid or has been changed. Please update your token and restart."

/-- Effects of the run's `finally` block in `startSender`. -/
structure FinalizeResult where
  state : SessionSender
  persistedActiveStatus : Bool
  persistedWantsActive : Option Bool
  logMsg : Option (String × String)
  runsSupervisor : Bool
deriving DecidableEq, Repr

/-- The run finalizer (`finally` block of `startSender`'s async run):
capture `userWantedStop = s.shouldStop`, reset the session record to
idle (`isActive:false, activeThreads:0, startTime:null,
shouldStop:false`), persist the inactive status
(`updateConfigStatus(sessionId, false)`), then branch: on
`token_invalid` persist `userWantsActive = false` and emit the
token-invalid error log; otherwise, if the stop was not user-requested
enter the auto-restart supervisor; otherwise emit the
shutdown-complete warning. -/
def finalizeRun (s : SessionSender) (loopResult : RunOutcome) : FinalizeResult :=
  let userWantedStop := s.shouldStop
  let idle : SessionSender :=
    { s with isActive := false, activeThreads := 0, startTime := none, shouldStop := false }
  if loopResult = .token_invalid then
    { state := idle
      persistedActiveStatus := false
      persistedWantsActive := some false
      logMsg := some (tokenInvalidLogMsg, "error")
      runsSupervisor := false }
  else if !userWantedStop then
    { state := idle
      persistedActiveStatus := false
      persistedWantsActive := none
      logMsg := none
      runsSupervisor := true }
  else
    { state := idle
      persistedActiveStatus := false
      persistedWantsActive := none
      logMsg := some ("System shutdown complete", "warn")
      runsSupervisor := false }

/-- The `StartError` values `startSender` can return (its `error`
strings). -/
inductive StartError
  | alreadyRunning
  | noValidChannelIds
  | tokenRequired
  | messageRequired
deriving DecidableEq, Repr

/-- Outcome of `startSender`'s validation prefix: whether the
mid-shutdown wait loop was entered, and either the first failing
check's error or the parsed channel-id list. -/
structure StartCheck where
  didWait : Bool
  outcome : Except StartError (List String)
deriving Repr

/-- `startSender`'s validation prefix, in source order.  `isActive0`
and `shouldStop0` are the session fields at entry; the wait loop is
entered only when `isActive0 && shouldStop0` (mid-shutdown), and
`isActiveAfterWait` is the `s.isActive` value observed once it exits
(when the wait is skipped there is no suspension point before the
`if (s.isActive)` check, so the entry value is re-read unchanged).
Then, first failure wins: active → already-running; parsed channel-id
list empty → no-valid-channel-ids; empty token → token-required;
empty message → message-required; otherwise the parsed list. -/
def startValidate (isActive0 shouldStop0 isActiveAfterWait : Bool)
    (token message channelIdsStr : String) : StartCheck :=
  let midShutdown := isActive0 && shouldStop0
  let activeNow := if midShutdown then isActiveAfterWait else isActive0
  { didWait := midShutdown
    outcome :=
      if activeNow then .error .alreadyRunning
      else
        let ids := parseChannelIds channelIdsStr
        if ids = [] then .error .noValidChannelIds
        else if token = "" then .error .tokenRequired
        else if message = "" then .error .messageRequired
        else .ok ids }

/-- The mid-shutdown wait loop of `startSender`
(`while (s.isActive && waited < 5000) { await 300ms; waited += 300 }`),
with fuel: `stillActive w` is the `s.isActive` value observed at the
check when the accumulated wait is `w` ms.  Returns the total
milliseconds waited. -/
def shutdownWaitAux (stillActive : Nat → Bool) : Nat → Nat → Nat
  | 0, waited => waited
  | fuel + 1, waited =>
      if stillActive waited ∧ waited < 5000 then shutdownWaitAux stillActive fuel (waited + 300)
      else waited

/-- Total milliseconds the mid-shutdown wait loop sleeps; 17 fuel
suffices because after 17 sleeps `waited = 5100 ≥ 5000`. -/
def midShutdownWaitMs (stillActive : Nat → Bool) : Nat :=
  shutdownWaitAux stillActive 17 0

/-- `interruptibleSleep`, abstracted over its flag observations: the
sleep checks `shouldStop` at entry and then every 200 ms, and resolves
`false` (interrupted) as soon as any observation is `true`; if the
timer fires with every observation `false` it resolves `true`
(continued). -/
def interruptibleSleepContinued (observations : List Bool) : Bool :=
  !(observations.any (fun b => b))

/-- Result record of `stopSender`: the session record afterwards, the
value persisted to `userWantsActive` (if any), the log emitted (if
any), and the returned `success` flag. -/
structure StopResult where
  state : SessionSender
  persistedWantsActive : Option Bool
  logMsg : Option (String × String)
  success : Bool
deriving DecidableEq, Repr

/-- `stopSender`: if the session is not active, return
`{success:false}` touching nothing; otherwise emit the abort warning,
set `shouldStop = true`, persist `userWantsActive = false`, and return
`{success:true}` immediately (the loops drain later; `isActive` is
reset only by the run's finalizer). -/
def stopSender (s : SessionSender) : StopResult :=
  if !s.isActive then
    { state := s, persistedWantsActive := none, logMsg := none, success := false }
  else
    { state := { s with shouldStop := true }
      persistedWantsActive := some false
      logMsg := some ("Abort signal received - shutting down...", "warn")
      success := true }

/-- The persisted per-session configuration record, as read back by
the auto-restart supervisor (`storage.getConfig`): the fields the
supervisor inspects. -/
structure ConfigRec where
  userWantsActive : Bool
  token : String
  message : String
  channelIds : String
  delay : Nat
deriving DecidableEq, Repr

/-- Wait (in whole seconds) before restart attempt `n` of the
auto-restart supervisor: `Math.min(retryNum * 5, 60)`. -/
def restartWaitSec (retryNum : Nat) : Nat :=
  Nat.min (retryNum * 5) 60

/-- The supervisor's warning log for attempt `n` waiting `w` seconds. -/
def restartWarnLog (n w : Nat) : String × String :=
  ("Unexpected stop - auto-restart #" ++ toString n ++ " in " ++ toString w ++ "s...", "warn")

/-- Environment of one supervisor iteration: whether the interruptible
sleep ran to completion, the configuration read back after the wait,
and whether the `startSender(..., isRestore=true)` call (if reached)
succeeds. -/
structure SuperEnv where
  continued : Bool
  config : Option ConfigRec
  startSuccess : Bool
deriving DecidableEq, Repr

/-- How the auto-restart supervisor ends (or that the supplied
environment list ran out while it was still looping). -/
inductive SuperResult
  | aborted
  | cancelled
  | restarted
  | pending
deriving DecidableEq, Repr

/-- The auto-restart supervisor loop of `startSender`'s finalizer,
driven by one `SuperEnv` per iteration.  Each iteration, in source
order: `retryNum++`; `waitTime = min(retryNum*5, 60)`; emit the
attempt warning (recorded in the trace as `(retryNum, waitTime)`);
sleep interruptibly — if interrupted, stop (`aborted`); re-read the
config — if missing or `userWantsActive` is false, stop
(`cancelled`); if token/message/channelIds incomplete, loop again; else
call `startSender(..., isRestore=true)` — on success stop
(`restarted`), on failure loop again.  Returns the result and the
trace of `(attempt, waitSec)` pairs. -/
def superRun (retryNum : Nat) : List SuperEnv → SuperResult × List (Nat × Nat)
  | [] => (.pending, [])
  | e :: rest =>
      let n := retryNum + 1
      let w := restartWaitSec n
      if !e.continued then (.aborted, [(n, w)])
      else
        match e.config with
        | none => (.cancelled, [(n, w)])
        | some c =>
            if !c.userWantsActive then (.cancelled, [(n, w)])
            else if c.token = "" ∨ c.message = "" ∨ c.channelIds = "" then
              let r := superRun n rest
              (r.1, (n, w) :: r.2)
            else if e.startSuccess then (.restarted, [(n, w)])
            else
              let r := superRun n rest
              (r.1, (n, w) :: r.2)

/-- One successful send handled by `channelLoop`'s success branch: the
synchronous `s.totalSent++` on the shared session record (the
JavaScript event loop makes the increment atomic — there is no
suspension point inside it). -/
def recordSent (s : SessionSender) : SessionSender :=
  { s with totalSent := s.totalSent + 1 }

/-- An interleaved execution of successful sends across the session's
channel loops: the trace lists, in scheduler order, the index of the
loop whose `s.totalSent++` ran. -/
def runSendTrace (s : SessionSender) : List Nat → SessionSender
  | [] => s
  | _ :: t => runSendTrace (recordSent s) t

/-- Progress of one in-flight `DatabaseStorage.incrementSent` call:
it still has to `await getConfig` (a read of the persisted total), or
it has read `captured` and still has to run the
`update … set totalSent = captured + 1` write, or it is done. -/
inductive IncPhase
  | toRead
  | toWrite (captured : Nat)
  | done
deriving DecidableEq, Repr

/-- The persisted total together with the in-flight `incrementSent`
calls. -/
structure IncState where
  db : Nat
  procs : List IncPhase
deriving DecidableEq, Repr

/-- One scheduler step: run the next awaited database operation of
in-flight call `i`.  A read captures the current persisted total; a
write stores `captured + 1`.  (Each `await` in `incrementSent` is a
suspension point, so distinct calls' reads and writes may interleave
freely.) -/
def incStep (st : IncState) (i : Nat) : IncState :=
  match st.procs.get? i with
  | some .toRead => { st with procs := st.procs.set i (.toWrite st.db) }
  | some (.toWrite v) => { db := v + 1, procs := st.procs.set i .done }
  | _ => st

/-- Run a schedule (a list of in-flight call indices) over the
persisted-counter state. -/
def incRun (st : IncState) (sched : List Nat) : IncState :=
  sched.foldl incStep st

/-- The trace the supervisor is expected to produce starting after
attempt `n`: `k` further attempts numbered `n+1, n+2, …`, each paired
with its wait `restartWaitSec`. -/
def expectedTrace (n : Nat) : Nat → List (Nat × Nat)
  | 0 => []
  | k + 1 => (n + 1, restartWaitSec (n + 1)) :: expectedTrace (n + 1) k

/-- Helper: each `SessionStep` preserves the status invariant. -/
theorem sessionStep_preserves_invariant {s s2 : SessionSender}
    (hstep : SessionStep s s2) (hinv : sessionInvariant s) : sessionInvariant s2 := by
  cases hstep <;>
    simp_all [sessionInvariant, statusInvariant, getStatus]

/-- Helper: the freshly created session record satisfies the status
invariant. -/
theorem initSession_invariant (sid : String) : sessionInvariant (initSession sid) := by
  simp [sessionInvariant, statusInvariant, getStatus, initSession]

/-- C3: at every observable point (`getStatus` / `getAllStatuses`),
`isActive == false` implies `activeThreads == 0` and `startTime`
absent: the invariant holds for the freshly created record, is
preserved by every mutation block of the sender module (including the
run's guaranteed finalization step), and hence holds in every
reachable session state. -/
theorem c3_status_invariant :
    (∀ sid, sessionInvariant (initSession sid)) ∧
    (∀ s s2 : SessionSender, SessionStep s s2 → sessionInvariant s → sessionInvariant s2) ∧
    (∀ sid s, SessionReachable sid s → sessionInvariant s) := by
  refine ⟨initSession_invariant, fun s s2 h hi => sessionStep_preserves_invariant h hi, ?_⟩
  intro sid s hreach
  induction hreach with
  | refl => exact initSession_invariant sid
  | tail _ hstep ih => exact sessionStep_preserves_invariant hstep ih

/-- C3 witness: the invariant instantiated at the freshly created
session reachable by the empty step sequence. -/
theorem c3_witness : sessionInvariant (initSession "w3") :=
  c3_status_invariant.2.2 "w3" (initSession "w3") Relation.ReflTransGen.refl

/-- C1: once `Promise.all` has delivered every launched channel
loop's terminal outcome and at least one of them is `token_invalid`,
`senderLoop` forces the session's `shouldStop` flag true and reports
the run outcome `token_invalid`; the run finalizer then persists
`userWantsActive = false` and emits the error log telling the user to
update their token. -/
theorem c1_token_invalid_session_outcome (s : SessionSender) (results : List ChannelOutcome)
    (hmem : ChannelOutcome.token_invalid ∈ results) :
    (senderLoopAggregate s.shouldStop results).1 = true ∧
    (senderLoopAggregate s.shouldStop results).2 = RunOutcome.token_invalid ∧
    (finalizeRun { s with shouldStop := (senderLoopAggregate s.shouldStop results).1 }
        (senderLoopAggregate s.shouldStop results).2).persistedWantsActive = some false ∧
    (finalizeRun { s with shouldStop := (senderLoopAggregate s.shouldStop results).1 }
        (senderLoopAggregate s.shouldStop results).2).logMsg =
      some (tokenInvalidLogMsg, "error") := by
  simp [senderLoopAggregate, hmem, finalizeRun]

/-- C1 witness: a run of one channel loop that terminated
`token_invalid`, from the fresh session record. -/
theorem c1_witness :
    (senderLoopAggregate (initSession "w1").shouldStop [ChannelOutcome.token_invalid]).1 = true ∧
    (senderLoopAggregate (initSession "w1").shouldStop [ChannelOutcome.token_invalid]).2 =
      RunOutcome.token_invalid ∧
    (finalizeRun
        { initSession "w1" with
            shouldStop :=
              (senderLoopAggregate (initSession "w1").shouldStop [ChannelOutcome.token_invalid]).1 }
        (senderLoopAggregate (initSession "w1").shouldStop
          [ChannelOutcome.token_invalid]).2).persistedWantsActive = some false ∧
    (finalizeRun
        { initSession "w1" with
            shouldStop :=
              (senderLoopAggregate (initSession "w1").shouldStop [ChannelOutcome.token_invalid]).1 }
        (senderLoopAggregate (initSession "w1").shouldStop
          [ChannelOutcome.token_invalid]).2).logMsg = some (tokenInvalidLogMsg, "error") :=
  c1_token_invalid_session_outcome (initSession "w1") [ChannelOutcome.token_invalid] (by decide)

/-- C2 counterexample: an iteration whose delivery attempt returned
`Unauthorized` (`cooldownMs = -401`) but whose `shouldStop` flag reads
true at the `if (s.shouldStop) return "stopped"` check exits with
outcome `stopped`, not `token_invalid` — the flag check precedes the
`-401` check in `channelLoop`. -/
theorem c2_counterexample :
    channelIter (sendOneMessage false (HttpOutcome.response 401 0)) true 0 30 =
      IterOut.exit ChannelOutcome.stopped ∧
    IterOut.exit ChannelOutcome.stopped ≠ IterOut.exit ChannelOutcome.token_invalid := by
  decide

/-- C2 (amended): when a delivery attempt returns `Unauthorized`
(HTTP 401 with the flag clear at send time), the channel loop exits
immediately with `token_invalid` provided the cancellation flag is
still false at the moment the result is examined; if the flag is
already true at that check, the loop exits immediately with outcome
`stopped` instead. -/
theorem c2_unauthorized_exit :
    ∀ (k w : Nat),
      channelIter (sendOneMessage false (HttpOutcome.response 401 0)) false k w =
        IterOut.exit ChannelOutcome.token_invalid ∧
      channelIter (sendOneMessage false (HttpOutcome.response 401 0)) true k w =
        IterOut.exit ChannelOutcome.stopped := by
  intro k w
  constructor <;> simp [channelIter, sendOneMessage]

/-- Helper: the mid-shutdown wait loop accumulates at most 300 ms per
fuel unit. -/
theorem shutdownWaitAux_le (stillActive : Nat → Bool) :
    ∀ (fuel waited : Nat), shutdownWaitAux stillActive fuel waited ≤ waited + 300 * fuel := by
  intro fuel
  induction fuel with
  | zero => intro waited; simp [shutdownWaitAux]
  | succ f ih =>
      intro waited
      by_cases h : stillActive waited = true ∧ waited < 5000
      · calc shutdownWaitAux stillActive (f + 1) waited
            = shutdownWaitAux stillActive f (waited + 300) := by
              simp [shutdownWaitAux, h]
          _ ≤ waited + 300 + 300 * f := ih (waited + 300)
          _ ≤ waited + 300 * (f + 1) := by omega
      · have : shutdownWaitAux stillActive (f + 1) waited = waited := by
          simp only [shutdownWaitAux, if_neg h]
        omega

/-- Helper: the mid-shutdown wait loop only ever adds 300 ms
increments. -/
theorem shutdownWaitAux_mod (stillActive : Nat → Bool) :
    ∀ (fuel waited : Nat), waited % 300 = 0 →
      shutdownWaitAux stillActive fuel waited % 300 = 0 := by
  intro fuel
  induction fuel with
  | zero => intro waited h; simpa [shutdownWaitAux] using h
  | succ f ih =>
      intro waited h
      by_cases hc : stillActive waited = true ∧ waited < 5000
      · have h300 : (waited + 300) % 300 = 0 := by omega
        simpa [shutdownWaitAux, hc] using ih (waited + 300) h300
      · simpa [shutdownWaitAux, if_neg hc] using h

/-- C4: `startSender` validates in a fixed order with the first
failure winning.  The mid-shutdown wait (entered only when
`isActive && shouldStop`) sleeps in 300 ms increments and totals at
most 5100 ms; a second `start` issued while a run is active but not
mid-shutdown fails with `alreadyRunning` without entering the wait
loop; after the active check, an empty parsed channel-id list fails
before an empty token, which fails before an empty message; and an
input passing all checks yields the parsed id list. -/
theorem c4_start_validation_order :
    (∀ stillActive, midShutdownWaitMs stillActive ≤ 5100 ∧
      midShutdownWaitMs stillActive % 300 = 0) ∧
    (∀ (aw : Bool) (tok msg ch : String),
      (startValidate true false aw tok msg ch).didWait = false ∧
      (startValidate true false aw tok msg ch).outcome = .error .alreadyRunning) ∧
    (∀ (tok msg ch : String),
      (startValidate true true true tok msg ch).didWait = true ∧
      (startValidate true true true tok msg ch).outcome = .error .alreadyRunning) ∧
    (∀ (a0 s0 aw : Bool) (tok msg ch : String),
      (if a0 && s0 then aw else a0) = false → parseChannelIds ch = [] →
      (startValidate a0 s0 aw tok msg ch).outcome = .error .noValidChannelIds) ∧
    (∀ (a0 s0 aw : Bool) (msg ch : String),
      (if a0 && s0 then aw else a0) = false → parseChannelIds ch ≠ [] →
      (startValidate a0 s0 aw "" msg ch).outcome = .error .tokenRequired) ∧
    (∀ (a0 s0 aw : Bool) (tok ch : String),
      (if a0 && s0 then aw else a0) = false → parseChannelIds ch ≠ [] → tok ≠ "" →
      (startValidate a0 s0 aw tok "" ch).outcome = .error .messageRequired) ∧
    (∀ (a0 s0 aw : Bool) (tok msg ch : String),
      (if a0 && s0 then aw else a0) = false → parseChannelIds ch ≠ [] →
      tok ≠ "" → msg ≠ "" →
      (startValidate a0 s0 aw tok msg ch).outcome = .ok (parseChannelIds ch)) := by
  refine ⟨?wait, ?nowait, ?midshut, ?noids, ?notok, ?nomsg, ?ok⟩
  · intro stillActive
    refine ⟨?_, shutdownWaitAux_mod stillActive 17 0 rfl⟩
    have := shutdownWaitAux_le stillActive 17 0
    simpa [midShutdownWaitMs] using this
  · intro aw tok msg ch
    simp [startValidate]
  · intro tok msg ch
    simp [startValidate]
  · intro a0 s0 aw tok msg ch hactive hids
    cases a0 <;> cases s0 <;> cases aw <;> simp_all [startValidate]
  · intro a0 s0 aw msg ch hactive hids
    cases a0 <;> cases s0 <;> cases aw <;> simp_all [startValidate]
  · intro a0 s0 aw tok ch hactive hids htok
    cases a0 <;> cases s0 <;> cases aw <;> simp_all [startValidate]
  · intro a0 s0 aw tok msg ch hactive hids htok hmsg
    cases a0 <;> cases s0 <;> cases aw <;> simp_all [startValidate]

/-- C4 witness: an idle session with an all-rejected channel-id input
fails with the no-valid-channel-ids error. -/
theorem c4_witness :
    (startValidate false false false "tok" "msg" "abc").outcome =
      .error .noValidChannelIds :=
  c4_start_validation_order.2.2.2.1 false false false "tok" "msg" "abc" (by decide) (by decide)

/-- C5 counterexample: the persisted total maintained by
`DatabaseStorage.incrementSent` is a read-modify-write split across an
`await`; with two concurrent increments the schedule read₁, read₂,
write₁, write₂ leaves the persisted total at 1 where the claim
requires exactly N = 2. -/
theorem c5_counterexample :
    (incRun { db := 0, procs := [IncPhase.toRead, IncPhase.toRead] } [0, 1, 0, 1]).db = 1 ∧
    (1 : Nat) ≠ 2 := by
  decide

/-- C5 (amended): the in-memory `totalSent` counter is exact — each
successful send's `s.totalSent++` is a synchronous event-loop step, so
after any interleaving of N sends across any number of channel loops
the counter has grown by exactly N.  The persisted total updated via
`incrementSent` is not serialized: its read and its write are separate
awaited database operations, so overlapping increments can lose
updates (two concurrent increments can net +1), while the fully
sequential schedule nets +2. -/
theorem c5_total_sent_counting :
    (∀ (s : SessionSender) (tr : List Nat),
      (runSendTrace s tr).totalSent = s.totalSent + tr.length) ∧
    (incRun { db := 0, procs := [IncPhase.toRead, IncPhase.toRead] } [0, 0, 1, 1]).db = 2 ∧
    (incRun { db := 0, procs := [IncPhase.toRead, IncPhase.toRead] } [0, 1, 0, 1]).db ≠ 2 := by
  refine ⟨?_, by decide, by decide⟩
  intro s tr
  induction tr generalizing s with
  | nil => simp [runSendTrace]
  | cons a t ih =>
      have := ih (recordSent s)
      simp only [runSendTrace] at this ⊢
      rw [this]
      simp [recordSent]
      omega

/-- Helper: the supervisor's warning trace consists of consecutive
attempt numbers starting right after `retryNum`, each paired with the
wait `restartWaitSec` of that attempt. -/
theorem superRun_trace (envs : List SuperEnv) :
    ∀ retryNum : Nat, ∃ k, (superRun retryNum envs).2 = expectedTrace retryNum k := by
  induction envs with
  | nil => intro n; exact ⟨0, by simp [superRun, expectedTrace]⟩
  | cons e rest ih =>
      intro n
      obtain ⟨ec, ecfg, ess⟩ := e
      cases ec with
      | false => exact ⟨1, by simp [superRun, expectedTrace]⟩
      | true =>
          cases ecfg with
          | none => exact ⟨1, by simp [superRun, expectedTrace]⟩
          | some c =>
              by_cases hw : c.userWantsActive = true
              · by_cases hinc : c.token = "" ∨ c.message = "" ∨ c.channelIds = ""
                · obtain ⟨k, hk⟩ := ih (n + 1)
                  exact ⟨k + 1, by simp [superRun, hw, hinc, expectedTrace, hk]⟩
                · cases ess with
                  | true => exact ⟨1, by simp [superRun, hw, hinc, expectedTrace]⟩
                  | false =>
                      obtain ⟨k, hk⟩ := ih (n + 1)
                      exact ⟨k + 1, by simp [superRun, hw, hinc, expectedTrace, hk]⟩
              · exact ⟨1, by simp [superRun, hw, expectedTrace]⟩

/-- C6: the auto-restart supervisor loops with an attempt counter
starting at 1; before each attempt it waits `min(5·n, 60)` seconds and
emits the warning naming the attempt and wait (its warning trace is
always a prefix-shaped `expectedTrace`, i.e. attempts 1, 2, 3, …
waiting 5 s, 10 s, 15 s, … capped at 60 s); it stops permanently
exactly when the interruptible sleep is cancelled, when the re-read
configuration is missing, or when its `userWantsActive` intent is
false; it loops again without restarting when the configuration is
incomplete; and otherwise it calls `startSender(..., isRestore=true)`,
ending on success and looping again on failure. -/
theorem c6_restart_supervisor :
    (∀ m, restartWaitSec m = Nat.min (m * 5) 60) ∧
    (∀ (envs : List SuperEnv) (n : Nat), ∃ k, (superRun n envs).2 = expectedTrace n k) ∧
    ((expectedTrace 0 14).map Prod.snd =
      [5, 10, 15, 20, 25, 30, 35, 40, 45, 50, 55, 60, 60, 60]) ∧
    (∀ (n : Nat) (cfg : Option ConfigRec) (ss : Bool) (rest : List SuperEnv),
      superRun n ({ continued := false, config := cfg, startSuccess := ss } :: rest) =
        (.aborted, [(n + 1, restartWaitSec (n + 1))])) ∧
    (∀ (n : Nat) (ss : Bool) (rest : List SuperEnv),
      superRun n ({ continued := true, config := none, startSuccess := ss } :: rest) =
        (.cancelled, [(n + 1, restartWaitSec (n + 1))])) ∧
    (∀ (n : Nat) (c : ConfigRec) (ss : Bool) (rest : List SuperEnv),
      c.userWantsActive = false →
      superRun n ({ continued := true, config := some c, startSuccess := ss } :: rest) =
        (.cancelled, [(n + 1, restartWaitSec (n + 1))])) ∧
    (∀ (n : Nat) (c : ConfigRec) (ss : Bool) (rest : List SuperEnv),
      c.userWantsActive = true →
      (c.token = "" ∨ c.message = "" ∨ c.channelIds = "") →
      superRun n ({ continued := true, config := some c, startSuccess := ss } :: rest) =
        ((superRun (n + 1) rest).1,
          (n + 1, restartWaitSec (n + 1)) :: (superRun (n + 1) rest).2)) ∧
    (∀ (n : Nat) (c : ConfigRec) (rest : List SuperEnv),
      c.userWantsActive = true →
      c.token ≠ "" → c.message ≠ "" → c.channelIds ≠ "" →
      superRun n ({ continued := true, config := some c, startSuccess := true } :: rest) =
        (.restarted, [(n + 1, restartWaitSec (n + 1))])) ∧
    (∀ (n : Nat) (c : ConfigRec) (rest : List SuperEnv),
      c.userWantsActive = true →
      c.token ≠ "" → c.message ≠ "" → c.channelIds ≠ "" →
      superRun n ({ continued := true, config := some c, startSuccess := false } :: rest) =
        ((superRun (n + 1) rest).1,
          (n + 1, restartWaitSec (n + 1)) :: (superRun (n + 1) rest).2)) := by
  refine ⟨fun m => rfl, fun envs n => superRun_trace envs n, by decide, ?_, ?_, ?_, ?_, ?_, ?_⟩
  · intro n cfg ss rest
    simp [superRun]
  · intro n ss rest
    simp [superRun]
  · intro n c ss rest hw
    simp [superRun, hw]
  · intro n c ss rest hw hinc
    simp [superRun, hw, hinc]
  · intro n c rest hw htok hmsg hch
    simp [superRun, hw, htok, hmsg, hch]
  · intro n c rest hw htok hmsg hch
    simp [superRun, hw, htok, hmsg, hch]

/-- C6 witness: with the sleep interrupted on the first iteration the
supervisor aborts after logging attempt 1 with a 5 s wait. -/
theorem c6_witness :
    superRun 0 (SuperEnv.mk true (some (ConfigRec.mk false "t" "m" "1" 30)) false :: []) =
      (.cancelled, [(1, restartWaitSec 1)]) :=
  c6_restart_supervisor.2.2.2.2.2.1 0 (ConfigRec.mk false "t" "m" "1" 30) false [] rfl

/-- C7: `stopSender` on an idle session returns `success:false` and
changes nothing (no log, no flag, no persisted intent); on an active
session it returns `success:true` with only `shouldStop` flipped —
`isActive` is still true on return, i.e. it does not wait for the
loops to drain — and persists `userWantsActive = false`. -/
theorem c7_stop_sender (s : SessionSender) :
    (s.isActive = false →
      stopSender s =
        { state := s, persistedWantsActive := none, logMsg := none, success := false }) ∧
    (s.isActive = true →
      (stopSender s).success = true ∧
      (stopSender s).state = { s with shouldStop := true } ∧
      (stopSender s).state.isActive = true ∧
      (stopSender s).persistedWantsActive = some false) := by
  constructor
  · intro h; simp [stopSender, h]
  · intro h; simp [stopSender, h]

/-- C7 witness: stopping the freshly created (idle) session fails and
leaves it untouched. -/
theorem c7_witness :
    stopSender (initSession "w7") =
      { state := initSession "w7", persistedWantsActive := none,
        logMsg := none, success := false } :=
  (c7_stop_sender (initSession "w7")).1 rfl

/-- C8: `startSender` parses the channel-id input by splitting on
commas and newlines, trimming, and keeping exactly the all-digit
tokens: `"123, 456\n789abc"` resolves to exactly `["123", "456"]`
(`"789abc"` rejected), and any input whose parsed list is empty fails
the idle-session validation with the no-valid-channel-ids error. -/
theorem c8_channel_id_parsing :
    parseChannelIds "123, 456\n789abc" = ["123", "456"] ∧
    (∀ tok msg input, parseChannelIds input = [] →
      (startValidate false false false tok msg input).outcome =
        .error .noValidChannelIds) := by
  constructor
  · decide
  · intro tok msg input h
    simp [startValidate, h]

/-- C8 witness: the all-letters input `"abc"` parses to the empty list
and start fails with the no-valid-channel-ids error. -/
theorem c8_witness :
    (startValidate false false false "tok" "msg" "abc,def").outcome =
      .error .noValidChannelIds :=
  c8_channel_id_parsing.2 "tok" "msg" "abc,def" (by decide)

/-- C9 counterexample: three consecutive transient failures (network
errors) on one destination produce backoffs 5 s, 5 s, 5 s — not the
claimed 10 s, 20 s, 30 s — because `sendOneMessage` returns
`cooldownMs = 5000` for a transient failure and `channelLoop` uses any
positive `cooldownMs` directly, so the escalating
`min(10000·consecutiveErrors, 120000)` branch is never reached for a
transient error. -/
theorem c9_counterexample :
    runTransient 0 3 = [5000, 5000, 5000] ∧
    ([5000, 5000, 5000] : List Nat) ≠ [10000, 20000, 30000] := by
  decide

/-- Helper: a transient failure always yields the fixed 5000 ms wait
and bumps the consecutive-error count. -/
theorem channelIter_transient (k : Nat) :
    channelIter (sendOneMessage false HttpOutcome.networkError) false k 0 =
      IterOut.next (k + 1) 5000 := by
  simp [channelIter, sendOneMessage, backoffWaitMs]

/-- C9 (amended): every consecutive `TransientError` produces a fixed
5000 ms backoff regardless of the consecutive-error count — the
attempt's `cooldownMs = 5000` takes precedence over the escalating
`min(10·k s, 120 s)` branch, which applies only to a non-positive
cooldown other than the `-1`/`-401` sentinels and is unreachable for
transient errors; the count still increments per failure, and a
single `Sent` resets it to 0. -/
theorem c9_transient_backoff :
    (∀ k, sendOneMessage false HttpOutcome.networkError =
      { sent := false, cooldownMs := 5000 } ∧
      channelIter (sendOneMessage false HttpOutcome.networkError) false k 0 =
        IterOut.next (k + 1) 5000) ∧
    (∀ k n, runTransient k n = List.replicate n 5000) ∧
    (∀ k, backoffWaitMs 0 k = Nat.min (10000 * k) 120000) ∧
    (∀ k w, channelIter (sendOneMessage false (HttpOutcome.response 200 0)) false k w =
      IterOut.next 0 (w * 1000)) := by
  refine ⟨fun k => ⟨rfl, channelIter_transient k⟩, ?_, fun k => rfl, ?_⟩
  · intro k n
    induction n generalizing k with
    | zero => simp [runTransient]
    | succ m ih =>
        simp [runTransient, channelIter_transient k, ih (k + 1), List.replicate]
  · intro k w
    simp [channelIter, sendOneMessage]

/-- Helper: an interruptible sleep during which the cancellation flag
is never observed true runs to completion. -/
theorem interruptibleSleepContinued_all_false (k : Nat) :
    interruptibleSleepContinued (List.replicate k false) = true := by
  induction k with
  | zero => rfl
  | succ m ih => simp [interruptibleSleepContinued, List.replicate]

/-- C10: calling `stopSender` on a session whose engine state is idle
(`isActive = false`) — as it is while that session's auto-restart
supervisor sleeps between attempts, the finalizer having already
reset `isActive` — returns `success:false` before touching anything:
the session record (including `shouldStop`) is unchanged and no
`userWantsActive` value is persisted.  Consequently the supervisor's
interruptible sleep observes a false flag at every 200 ms check and
completes, and the unchanged configuration (intent still true,
complete fields) drives the supervisor to its restart attempt. -/
theorem c10_stop_idle_supervisor (s : SessionSender) (c : ConfigRec)
    (k n : Nat) (rest : List SuperEnv)
    (hidle : s.isActive = false) (hflag : s.shouldStop = false)
    (hwants : c.userWantsActive = true)
    (htok : c.token ≠ "") (hmsg : c.message ≠ "") (hch : c.channelIds ≠ "") :
    (stopSender s).success = false ∧
    (stopSender s).state = s ∧
    (stopSender s).persistedWantsActive = none ∧
    interruptibleSleepContinued (List.replicate k (stopSender s).state.shouldStop) = true ∧
    superRun n (SuperEnv.mk true (some c) true :: rest) =
      (.restarted, [(n + 1, restartWaitSec (n + 1))]) := by
  have hstop : stopSender s =
      { state := s, persistedWantsActive := none, logMsg := none, success := false } := by
    simp [stopSender, hidle]
  refine ⟨by simp [hstop], by simp [hstop], by simp [hstop], ?_, ?_⟩
  · rw [hstop]
    simpa [hflag] using interruptibleSleepContinued_all_false k
  · simp [superRun, hwants, htok, hmsg, hch]

/-- C10 witness: the idle fresh session with a complete, still-wanted
configuration. -/
theorem c10_witness :
    (stopSender (initSession "w10")).success = false ∧
    (stopSender (initSession "w10")).state = initSession "w10" ∧
    (stopSender (initSession "w10")).persistedWantsActive = none ∧
    interruptibleSleepContinued
      (List.replicate 3 (stopSender (initSession "w10")).state.shouldStop) = true ∧
    superRun 0 (SuperEnv.mk true (some (ConfigRec.mk true "t" "m" "1" 30)) true :: []) =
      (.restarted, [(1, restartWaitSec 1)]) :=
  c10_stop_idle_supervisor (initSession "w10") (ConfigRec.mk true "t" "m" "1" 30)
    3 0 [] rfl rfl rfl (by decide) (by decide) (by decide)
